import Mathlib

/-!
# Verification of the ConfluenceClient / ConfluencePage script include

Shallow embedding of `src/Server Development/Script Includes/ConfluenceClient.script.js`.

JavaScript values that can be `undefined` are modelled as `Option`; field values of
the Scaffolding sidecar (which are arbitrary JS values) are modelled by the small
`JsVal` universe with JS truthiness.  Functions that can `throw` return
`Except String _`; HTTP traffic is modelled by response oracles passed in as
arguments, together with an explicit log of the requests that were issued.
-/

set_option autoImplicit false

namespace SnConfluence

/-- A small universe of JavaScript values, used for Scaffolding field values. -/
inductive JsVal where
  | vNull
  | vUndefined
  | vStr (s : String)
  | vNum (n : Int)
  | vBool (b : Bool)
deriving DecidableEq, Repr

/-- JavaScript truthiness of a `JsVal` (`null`, `undefined`, `""`, `0`, `false` are falsy). -/
def JsVal.truthy : JsVal → Bool
  | .vNull => false
  | .vUndefined => false
  | .vStr s => s ≠ ""
  | .vNum n => n ≠ 0
  | .vBool b => b

/-- Whether a `JsVal` is nullish, i.e. `null` or `undefined`. -/
def JsVal.nullish : JsVal → Bool
  | .vNull => true
  | .vUndefined => true
  | _ => false

/-- JS truthiness test used on string-valued fields that may be `undefined`:
`undefined` and the empty string are falsy. -/
def jsStrFalsy : Option String → Bool
  | none => true
  | some s => s = ""

/-- `ConfluenceClient.isValidInteger` (regex `^[0-9]{1,}$` on the value's string form)
applied to a JS number: exactly the non-negative integers pass. -/
def ConfluenceClient.isValidIntegerNum (v : Int) : Bool :=
  0 ≤ v

/-- Character class of `ConfluenceClient.isValidLabelName`:
`[0-9a-zA-Z_\-~{}%+]` (the two brace characters are written via their code points). -/
def isValidLabelChar (c : Char) : Bool :=
  c.isDigit || c.isAlpha || c = '_' || c = '-' || c = '~' ||
    c = Char.ofNat 123 || c = Char.ofNat 125 || c = '%' || c = '+'

/-- `ConfluenceClient.isValidLabelName`: regex `^[0-9a-zA-Z_\-~{}%+]{1,}$`. -/
def ConfluenceClient.isValidLabelName (s : String) : Bool :=
  s.length > 0 && s.toList.all isValidLabelChar

/-- JS `String.prototype.trim` on the character list: drop leading and
trailing whitespace. -/
def jsTrim (s : String) : String :=
  ⟨((s.data.dropWhile Char.isWhitespace).reverse.dropWhile Char.isWhitespace).reverse⟩

/-- JS `String.prototype.toLowerCase` on the character list. -/
def jsToLower (s : String) : String :=
  ⟨s.data.map Char.toLower⟩

/-- Whether a character list starts with a given pattern. -/
def listStartsWith : List Char → List Char → Bool
  | _, [] => true
  | [], _ :: _ => false
  | c :: cs, d :: ds => c = d && listStartsWith cs ds

/-- Whether a character list contains a given pattern as a contiguous
sub-list; models JS `indexOf(pattern) != -1` on strings. -/
def listHasSubstr : List Char → List Char → Bool
  | [], needle => needle.isEmpty
  | c :: cs, needle => listStartsWith (c :: cs) needle || listHasSubstr cs needle

/-- JS `hay.indexOf(needle) != -1`. -/
def jsContainsSubstr (hay needle : String) : Bool :=
  listHasSubstr hay.data needle.data

/-- The local label normalization used by `ConfluencePage.addLabel` /
`removeLabel` / `hasLabel`: `strLabelName.toLowerCase().trim()`. -/
def normalizeLabel (s : String) : String :=
  jsTrim (jsToLower s)

/-- One `{name, value}` record of the Scaffolding form-data array. -/
structure ScaffoldingField where
  name : String
  value : JsVal
deriving DecidableEq, Repr

/-- In-memory state of a `ConfluencePage` object: the fields and dirty flags that
the verified operations read or write.  `valid` models the outcome of
`isValid()` (the internal-id generation-tag comparison with the owning client). -/
structure ConfluencePage where
  id : Option String
  status : Option String
  title : Option String
  spaceKey : Option String
  versionNumber : Option Int
  body : Option String
  parentPageId : Option String
  labels : Option (List String)
  scaffoldingData : Option (List ScaffoldingField)
  hasTitleChanged : Bool
  hasSpaceKeyChanged : Bool
  hasBodyChanged : Bool
  hasScaffoldingDataChanged : Bool
  hasParentPageIdChanged : Bool
  haveLabelsChanged : Bool
  valid : Bool
deriving DecidableEq, Repr

/-- `ConfluencePage.setVersionNumber`: validates the argument with
`isValidInteger`, clears the title/spaceKey/parentPageId/body/labels dirty
flags when the new version differs from the stored one (`!==`, so a page
without a stored version always differs), then stores the new version. -/
def ConfluencePage.setVersionNumber (p : ConfluencePage) (intVersionNumber : Int) :
    Except String ConfluencePage :=
  if ¬ ConfluenceClient.isValidIntegerNum intVersionNumber then
    .error "[ConfluencePage.setVersionNumber] Please pass a valid integer value!"
  else if p.versionNumber ≠ some intVersionNumber then
    .ok { p with
          hasTitleChanged := false
          hasSpaceKeyChanged := false
          hasParentPageIdChanged := false
          hasBodyChanged := false
          haveLabelsChanged := false
          versionNumber := some intVersionNumber }
  else
    .ok { p with versionNumber := some intVersionNumber }

/-- `ConfluencePage.setTitle`: rejects values that are not non-empty strings;
the dirty flag becomes *exactly* `this._strTitle !== strPageTitle`
(the previous flag value is overwritten, not OR-ed). -/
def ConfluencePage.setTitle (p : ConfluencePage) (strPageTitle : String) :
    Except String ConfluencePage :=
  if strPageTitle = "" then
    .error "[ConfluencePage.setTitle] Please pass a valid page title!"
  else
    .ok { p with
          hasTitleChanged := p.title != some strPageTitle
          title := some strPageTitle }

/-- `ConfluencePage.setBody`: any string is accepted; the dirty flag becomes
exactly `this._strBody !== strPageBody`. -/
def ConfluencePage.setBody (p : ConfluencePage) (strPageBody : String) : ConfluencePage :=
  { p with
    hasBodyChanged := p.body != some strPageBody
    body := some strPageBody }

/-- Local part of `ConfluencePage.addLabel` after its name validation: normalize
the name, do nothing if it is already present, otherwise mark the labels dirty
and append it.  A page without a labels array first gets an empty one. -/
def ConfluencePage.addLabelLocal (p : ConfluencePage) (strLabelName : String) : ConfluencePage :=
  let n := normalizeLabel strLabelName
  match p.labels with
  | some ls =>
      if ls.contains n then p
      else { p with haveLabelsChanged := true, labels := some (ls ++ [n]) }
  | none => { p with haveLabelsChanged := true, labels := some [n] }

/-- Local part of `ConfluencePage.removeLabel` after its name validation: if a
labels array exists, rebuild it without the normalized name and set the dirty
flag exactly when some entry matched. -/
def ConfluencePage.removeLabelLocal (p : ConfluencePage) (strLabelName : String) : ConfluencePage :=
  match p.labels with
  | none => p
  | some ls =>
      let n := normalizeLabel strLabelName
      { p with
        labels := some (ls.filter (fun l => !(l == n)))
        haveLabelsChanged := p.haveLabelsChanged || ls.contains n }

/-- First-match lookup of `ConfluencePage.getScaffoldingValue` over the
Scaffolding array (`===` comparison on the field name); `undefined` if absent. -/
def scaffoldingLookup : List ScaffoldingField → String → JsVal
  | [], _ => .vUndefined
  | f :: rest, n => if f.name = n then f.value else scaffoldingLookup rest n

/-- In-place first-match update of `ConfluencePage.setScaffoldingValue`
(`==` comparison on the field name): `some` of the updated array when a field
matched, `none` when no field has that name.  The stored value is
`objFieldValue || ""`, i.e. the empty string whenever the value is falsy. -/
def scaffoldingSet : List ScaffoldingField → String → JsVal → Option (List ScaffoldingField)
  | [], _, _ => none
  | f :: rest, n, v =>
      if f.name = n then some ({ f with value := if v.truthy then v else .vStr "" } :: rest)
      else (scaffoldingSet rest n v).map (f :: ·)

/-- `ConfluencePage.getScaffoldingValue`: validates the field name is a
non-empty string, then does the linear lookup (returns `undefined` when there
is no Scaffolding array or no matching field). -/
def ConfluencePage.getScaffoldingValue (p : ConfluencePage) (strFieldName : String) :
    Except String JsVal :=
  if strFieldName = "" then
    .error "[ConfluencePage.getScaffoldingValue] Please pass a valid field name!"
  else
    match p.scaffoldingData with
    | some fields => .ok (scaffoldingLookup fields strFieldName)
    | none => .ok .vUndefined

/-- `ConfluencePage.setScaffoldingValue`: validates the field name, updates the
first field with that name in place, or appends a fresh `{name, value}` record
when none matches (creating the array when the page has none).  The stored
value is `objFieldValue || ""`; every path sets the Scaffolding dirty flag. -/
def ConfluencePage.setScaffoldingValue (p : ConfluencePage) (strFieldName : String)
    (objFieldValue : JsVal) : Except String ConfluencePage :=
  if strFieldName = "" then
    .error "[ConfluencePage.setScaffoldingValue] Please pass a valid field name!"
  else
    match p.scaffoldingData with
    | some fields =>
        match scaffoldingSet fields strFieldName objFieldValue with
        | some fields2 =>
            .ok { p with scaffoldingData := some fields2, hasScaffoldingDataChanged := true }
        | none =>
            .ok { p with
                  scaffoldingData := some (fields ++
                    [⟨strFieldName, if objFieldValue.truthy then objFieldValue else .vStr ""⟩])
                  hasScaffoldingDataChanged := true }
    | none =>
        .ok { p with
              scaffoldingData := some
                [⟨strFieldName, if objFieldValue.truthy then objFieldValue else .vStr ""⟩]
              hasScaffoldingDataChanged := true }

/-- The `version` sub-object of a write payload.  `number` is an `Option` so
that the JS value `NaN` (produced by `undefined + 1` when the page carries no
version) has a representation. -/
structure VersionObj where
  number : Option Int
  minorEdit : Bool
deriving DecidableEq, Repr

/-- The request payload built by `ConfluencePage.stringify` (before
`JSON.stringify`).  `body` keeps only the `storage.value` string and
`ancestors` only the single parent id, matching the shapes
`{storage: {value, representation: "storage"}}` and `[{id}]`. -/
structure Payload where
  id : Option String
  version : Option VersionObj
  type : String
  title : Option String
  space : Option String
  body : Option String
  ancestors : Option (List String)
deriving DecidableEq, Repr

/-- The body/ancestors steps at the end of `ConfluencePage.stringify`: both are
guarded by JS truthiness of the stored field. -/
def stringifyTail (p : ConfluencePage) (r : Payload) : Payload :=
  let r2 :=
    match p.body with
    | some b => if b = "" then r else { r with body := some b }
    | none => r
  match p.parentPageId with
  | some pid => if pid = "" then r2 else { r2 with ancestors := some [pid] }
  | none => r2

/-- `ConfluencePage.stringify`: unless `createNewPage` is `true` the payload
carries `id` and `{version: {number: currentVersion + 1}}`; when
`suppressNotifications` is `true` the code then dereferences
`objResult.version` to set `minorEdit`, which throws a `TypeError` whenever
the version object was never created (i.e. in create mode). -/
def ConfluencePage.stringify (p : ConfluencePage) (createNewPage suppressNotifications : Bool) :
    Except String Payload :=
  let r1 : Payload :=
    if createNewPage then
      { id := none, version := none, type := "page", title := p.title,
        space := p.spaceKey, body := none, ancestors := none }
    else
      { id := p.id,
        version := some { number := p.versionNumber.map (· + 1), minorEdit := false },
        type := "page", title := p.title, space := p.spaceKey,
        body := none, ancestors := none }
  if suppressNotifications then
    match r1.version with
    | none =>
        .error "[ConfluencePage.stringify] TypeError: cannot set minorEdit of undefined version"
    | some v => .ok (stringifyTail p { r1 with version := some { v with minorEdit := true } })
  else
    .ok (stringifyTail p r1)

/-- One HTTP request issued by the label operations of `ConfluenceClient`:
the `GET .../label` listing, a `DELETE .../label?name=` per removal, and a
`POST .../label` per add call (carrying the list of names of its payload). -/
inductive LabelReq where
  | fetchReq
  | removeReq (name : String)
  | addReq (names : List String)
deriving DecidableEq, Repr

/-- `ConfluenceClient.removePageLabel`, with the server's status code for each
request supplied by `oracle`.  The result's first component is `none` when the
function throws (all throws happen during validation, before any request),
otherwise `some` of the returned boolean; the other components are the page
state afterwards and the list of requests issued.  On status 204 the label is
also removed from the page's local list. -/
def ConfluenceClient.removePageLabel (oracle : LabelReq → Nat) (p : ConfluencePage)
    (strLabelName : String) : Option Bool × ConfluencePage × List LabelReq :=
  if ¬ ConfluenceClient.isValidLabelName strLabelName then (none, p, [])
  else if ¬ p.valid then (none, p, [])
  else if jsStrFalsy p.id then (none, p, [])
  else if oracle (.removeReq strLabelName) = 204 then
    (some true, p.removeLabelLocal strLabelName, [.removeReq strLabelName])
  else
    (some false, p, [.removeReq strLabelName])

/-- `ConfluenceClient.addPageLabels`: validation (page, id, empty list returns
`false` without a request, each name against the label-name policy), then one
`POST` carrying all names; on status 200 every name is mirrored into the
page's local label list via `addLabel`. -/
def ConfluenceClient.addPageLabels (oracle : LabelReq → Nat) (p : ConfluencePage)
    (arrLabelNames : List String) : Option Bool × ConfluencePage × List LabelReq :=
  if ¬ p.valid then (none, p, [])
  else if jsStrFalsy p.id then (none, p, [])
  else if arrLabelNames.isEmpty then (some false, p, [])
  else if ¬ arrLabelNames.all ConfluenceClient.isValidLabelName then (none, p, [])
  else if oracle (.addReq arrLabelNames) = 200 then
    (some true, arrLabelNames.foldl ConfluencePage.addLabelLocal p, [.addReq arrLabelNames])
  else
    (some false, p, [.addReq arrLabelNames])

/-- The first loop of `ConfluenceClient.updatePageLabels`: for every remote
label name not occurring (plain `==` string comparison) in the local list,
call `removePageLabel`; a failing call only clears the running result flag,
a throwing call aborts the loop (the caller's `catch` turns it into `false`). -/
def removeLoop (oracle : LabelReq → Nat) (arrLocalLabels : List String) :
    List String → ConfluencePage → Bool → List LabelReq →
      Option Bool × ConfluencePage × List LabelReq
  | [], p, result1, log => (some result1, p, log)
  | name :: rest, p, result1, log =>
      if arrLocalLabels.contains name then
        removeLoop oracle arrLocalLabels rest p result1 log
      else
        match ConfluenceClient.removePageLabel oracle p name with
        | (none, p2, l) => (none, p2, log ++ l)
        | (some b, p2, l) => removeLoop oracle arrLocalLabels rest p2 (result1 && b) (log ++ l)

/-- The second loop of `ConfluenceClient.updatePageLabels`: for every local
label name not occurring (plain `==` string comparison) among the remote
names, call `addPageLabels` with that single name. -/
def addLoop (oracle : LabelReq → Nat) (arrRemoteLabels : List String) :
    List String → ConfluencePage → Bool → List LabelReq →
      Option Bool × ConfluencePage × List LabelReq
  | [], p, result2, log => (some result2, p, log)
  | name :: rest, p, result2, log =>
      if arrRemoteLabels.contains name then
        addLoop oracle arrRemoteLabels rest p result2 log
      else
        match ConfluenceClient.addPageLabels oracle p [name] with
        | (none, p2, l) => (none, p2, log ++ l)
        | (some b, p2, l) => addLoop oracle arrRemoteLabels rest p2 (result2 && b) (log ++ l)

/-- `ConfluenceClient.updatePageLabels` (the label reconciliation): validate
page and id (throws propagate, first component `none`), `GET` the remote
label list (`remoteLabels` is the decoded body, the oracle gives the status),
then run the remove loop against the local list snapshot and the add loop
against the remote list; an exception from a sub-call is caught and turned
into an overall `false`, otherwise the result is `result1 && result2`. -/
def ConfluenceClient.updatePageLabels (oracle : LabelReq → Nat)
    (remoteLabels : List String) (p : ConfluencePage) :
    Option Bool × ConfluencePage × List LabelReq :=
  if ¬ p.valid then (none, p, [])
  else if jsStrFalsy p.id then (none, p, [])
  else if oracle .fetchReq ≠ 200 then (some false, p, [.fetchReq])
  else
    let arrLocalLabels := p.labels.getD []
    match removeLoop oracle arrLocalLabels remoteLabels p true [.fetchReq] with
    | (none, p2, log) => (some false, p2, log)
    | (some result1, p2, log) =>
        match addLoop oracle remoteLabels arrLocalLabels p2 true log with
        | (none, p3, log2) => (some false, p3, log2)
        | (some result2, p3, log2) => (some (result1 && result2), p3, log2)

/-- `ConfluenceClient.removePage`, with the server's status code for the
`DELETE` passed as `respStatus`.  The second component counts the requests
issued: every validation failure (invalid page, missing id, status already
`"trashed"`) throws before any request; on 200 or 204 the local status is set
to `"trashed"` and `true` is returned, on any other status the page is left
unchanged and `false` is returned. -/
def ConfluenceClient.removePage (respStatus : Nat) (p : ConfluencePage) :
    Except String (Bool × ConfluencePage) × Nat :=
  if ¬ p.valid then
    (.error "[ConfluenceClient.removePage] Please pass a valid {ConfluencePage} object!", 0)
  else if jsStrFalsy p.id then
    (.error "[ConfluenceClient.removePage] {objPage} has no page ID stored!", 0)
  else if p.status = some "trashed" then
    (.error "[ConfluenceClient.removePage] Given {objPage} is already in status 'trashed'!", 0)
  else if respStatus = 200 ∨ respStatus = 204 then
    (.ok (true, { p with status := some "trashed" }), 1)
  else
    (.ok (false, p), 1)

/-- One decoded response of the search endpoint: the HTTP status code and the
`results` array (each element standing for one decoded page entity). -/
structure SearchResp where
  statusCode : Nat
  results : List String
deriving DecidableEq, Repr

/-- The `while (true)` pagination loop of `ConfluenceClient.searchPages`,
recursing on explicit fuel (the JS loop has no bound of its own; enough fuel
makes the model exact).  The server is a function from the final CQL string
and the `start` offset to a response; the returned list of offsets logs one
entry per request issued.  `none` stands for the `null` result of a non-200
page (or for exhausted fuel). -/
def searchLoop (server : String → Nat → SearchResp) (strFinalCQL : String) :
    Nat → Nat → List String → List Nat → Option (List String) × List Nat
  | 0, _, _, log => (none, log)
  | fuel + 1, intStartAt, arrPages, log =>
      let resp := server strFinalCQL intStartAt
      if resp.statusCode = 200 then
        if resp.results.length = 0 then (some arrPages, log ++ [intStartAt])
        else
          searchLoop server strFinalCQL fuel (intStartAt + resp.results.length)
            (arrPages ++ resp.results) (log ++ [intStartAt])
      else
        (none, log ++ [intStartAt])

/-- `ConfluenceClient.searchPages`: throws unless the CQL is a string whose
trimmed length exceeds 5; appends `" AND type=page"` to the trimmed query
when the lowercased original does not contain `"type=page"`; then paginates
from offset 0, accumulating the decoded results. -/
def ConfluenceClient.searchPages (server : String → Nat → SearchResp) (strCQL : String)
    (fuel : Nat) : Except String (Option (List String) × List Nat) :=
  if ¬ ((jsTrim strCQL).length > 5) then
    .error "[ConfluenceClient.searchPages] Please pass a valid CQL string!"
  else
    let strFinalCQL :=
      if ¬ jsContainsSubstr (jsToLower strCQL) "type=page" then
        jsTrim strCQL ++ " AND type=page"
      else jsTrim strCQL
    .ok (searchLoop server strFinalCQL fuel 0 [] [])

/-- Results the originating client's three update methods would return, used as
the boundary for the entity-side convenience methods. -/
structure ClientOracle where
  pageDataResult : Bool
  labelsResult : Bool
  scaffoldingResult : Bool
deriving DecidableEq, Repr

/-- A delegated call from a `ConfluencePage` convenience method to its
originating `ConfluenceClient`. -/
inductive ClientCall where
  | pageDataCall
  | labelsCall
  | scaffoldingCall
deriving DecidableEq, Repr

/-- Entity-side `ConfluencePage.updatePageData`: delegates to the client's
update only when one of the body/parent/spaceKey/title dirty flags is set,
otherwise returns `true` without any call. -/
def ConfluencePage.updatePageData (p : ConfluencePage) (co : ClientOracle) :
    Bool × List ClientCall :=
  if p.hasBodyChanged || p.hasParentPageIdChanged || p.hasSpaceKeyChanged || p.hasTitleChanged
  then (co.pageDataResult, [.pageDataCall])
  else (true, [])

/-- Entity-side `ConfluencePage.updatePageLabels`: delegates only when the
labels dirty flag is set. -/
def ConfluencePage.updatePageLabels (p : ConfluencePage) (co : ClientOracle) :
    Bool × List ClientCall :=
  if p.haveLabelsChanged then (co.labelsResult, [.labelsCall]) else (true, [])

/-- Entity-side `ConfluencePage.updateScaffoldingData`: delegates only when the
Scaffolding dirty flag is set. -/
def ConfluencePage.updateScaffoldingData (p : ConfluencePage) (co : ClientOracle) :
    Bool × List ClientCall :=
  if p.hasScaffoldingDataChanged then (co.scaffoldingResult, [.scaffoldingCall]) else (true, [])

/-- `ConfluencePage.update`:
`this.updatePageData(s) && this.updatePageLabels() && this.updateScaffoldingData()` —
JS `&&` short-circuits, so a failing step skips all later steps. -/
def ConfluencePage.update (p : ConfluencePage) (co : ClientOracle) : Bool × List ClientCall :=
  let r1 := p.updatePageData co
  if r1.1 = false then (false, r1.2)
  else
    let r2 := p.updatePageLabels co
    if r2.1 = false then (false, r1.2 ++ r2.2)
    else
      let r3 := p.updateScaffoldingData co
      (r3.1, r1.2 ++ r2.2 ++ r3.2)

/-- Whether none of the page's dirty flags is set. -/
def ConfluencePage.noDirty (p : ConfluencePage) : Bool :=
  !p.hasTitleChanged && !p.hasSpaceKeyChanged && !p.hasBodyChanged &&
    !p.hasParentPageIdChanged && !p.haveLabelsChanged && !p.hasScaffoldingDataChanged

/-! ## Concrete page states used by witnesses and counterexamples -/

/-- A server-decoded page in its freshly synchronized state: populated fields,
all dirty flags `false`, owned by its client (`valid`). -/
def basePage : ConfluencePage :=
  { id := some "100", status := some "current", title := some "A",
    spaceKey := some "space", versionNumber := some 1, body := some "old",
    parentPageId := some "7", labels := some ["a", "b"],
    scaffoldingData := none,
    hasTitleChanged := false, hasSpaceKeyChanged := false, hasBodyChanged := false,
    hasScaffoldingDataChanged := false, hasParentPageIdChanged := false,
    haveLabelsChanged := false, valid := true }

/-- `basePage` with locally modified labels (labels dirty flag set). -/
def pageLabelsDirty : ConfluencePage :=
  { basePage with haveLabelsChanged := true }

/-- `basePage` already moved to the recycle bin. -/
def pageTrashed : ConfluencePage :=
  { basePage with status := some "trashed" }

/-! ## C3 — `setVersionNumber` and the dirty flags -/

/-- Helper: the page produced by `setVersionNumber` on a differing version. -/
def ConfluencePage.afterVersionSync (p : ConfluencePage) (v : Int) : ConfluencePage :=
  { p with
    hasTitleChanged := false, hasSpaceKeyChanged := false,
    hasParentPageIdChanged := false, hasBodyChanged := false,
    haveLabelsChanged := false, versionNumber := some v }

/-- C3 (counterexample): `setVersionNumber` with a differing version does NOT
leave the labels dirty flag unchanged — starting from a page whose labels flag
is `true`, the flag is `false` afterwards. -/
theorem setVersionNumber_clears_label_flag :
    pageLabelsDirty.haveLabelsChanged = true ∧
    ∃ p', pageLabelsDirty.setVersionNumber 2 = .ok p' ∧ p'.haveLabelsChanged = false :=
  ⟨rfl, _, rfl, rfl⟩

/-- C3 (amended): for every page and valid version differing from the current
one, `setVersionNumber` clears the title, space-key, parent, body AND labels
dirty flags, stores the new version, and leaves the Scaffolding dirty flag
unchanged. -/
theorem setVersionNumber_dirty_flags (p : ConfluencePage) (v : Int)
    (h0 : 0 ≤ v) (hne : p.versionNumber ≠ some v) :
    p.setVersionNumber v = .ok (p.afterVersionSync v) ∧
    (p.afterVersionSync v).hasTitleChanged = false ∧
    (p.afterVersionSync v).hasSpaceKeyChanged = false ∧
    (p.afterVersionSync v).hasParentPageIdChanged = false ∧
    (p.afterVersionSync v).hasBodyChanged = false ∧
    (p.afterVersionSync v).hasScaffoldingDataChanged = p.hasScaffoldingDataChanged ∧
    (p.afterVersionSync v).versionNumber = some v := by
  refine ⟨?_, rfl, rfl, rfl, rfl, rfl, rfl⟩
  simp [ConfluencePage.setVersionNumber, ConfluenceClient.isValidIntegerNum, h0, hne,
    ConfluencePage.afterVersionSync]

/-- Witness for `setVersionNumber_dirty_flags` at a concrete page and version. -/
theorem setVersionNumber_dirty_flags_witness :
    pageLabelsDirty.setVersionNumber 2 = .ok (pageLabelsDirty.afterVersionSync 2) ∧
    (pageLabelsDirty.afterVersionSync 2).haveLabelsChanged = false :=
  ⟨(setVersionNumber_dirty_flags pageLabelsDirty 2 (by decide) (by decide)).1, rfl⟩

/-! ## C4 — dirty flags and the last known server state -/

/-- C4 (counterexample): starting from a server-synchronized page with title
`"A"` and a clear title flag, calling `setTitle "B"` twice leaves the title
flag `false` although the title (`"B"`) differs from the last server-confirmed
value (`"A"`): a false flag is NOT a guarantee of equality with the server
state. -/
theorem dirty_flag_not_server_equality :
    basePage.hasTitleChanged = false ∧ basePage.title = some "A" ∧
    ∃ p1 p2, basePage.setTitle "B" = .ok p1 ∧ p1.setTitle "B" = .ok p2 ∧
      p2.hasTitleChanged = false ∧ p2.title = some "B" :=
  ⟨rfl, rfl, _, _, rfl, rfl, rfl, rfl⟩

/-- C4 (amended): a false dirty flag after a setter call only guarantees that
this last call did not change the field — the field equals its value from
immediately before the call (for the title and the body setter alike); it does
not guarantee equality with the last server-synchronized value. -/
theorem dirty_flag_last_call (p p' : ConfluencePage) (t b : String)
    (ht : p.setTitle t = .ok p') :
    (p'.hasTitleChanged = false → p'.title = p.title) ∧
    ((p.setBody b).hasBodyChanged = false → (p.setBody b).body = p.body) := by
  constructor
  · intro hf
    by_cases h0 : t = ""
    · simp [ConfluencePage.setTitle, h0] at ht
    · simp [ConfluencePage.setTitle, h0] at ht
      rw [← ht] at hf ⊢
      simp only [bne_eq_false_iff_eq] at hf
      simp [hf]
  · intro hf
    simp only [ConfluencePage.setBody, bne_eq_false_iff_eq] at hf
    simp [ConfluencePage.setBody, hf]

/-- Witness for `dirty_flag_last_call`: re-setting the already stored title. -/
theorem dirty_flag_last_call_witness :
    ({ basePage with hasTitleChanged := false, title := some "A" } : ConfluencePage).title =
        basePage.title ∧
    ((basePage.setBody "old").hasBodyChanged = false → (basePage.setBody "old").body =
        basePage.body) :=
  ⟨(dirty_flag_last_call basePage _ "A" "old" rfl).1 rfl,
   (dirty_flag_last_call basePage _ "A" "old" rfl).2⟩

/-! ## C5 / C10 — `stringify` payloads -/

/-- The tail steps of `stringify` never touch the `version` field. -/
theorem stringifyTail_version (p : ConfluencePage) (r : Payload) :
    (stringifyTail p r).version = r.version := by
  unfold stringifyTail
  rcases p.body with _ | b <;> rcases p.parentPageId with _ | pid <;> dsimp <;>
    (repeat' split) <;> rfl

/-- The tail steps of `stringify` never touch the `id` field. -/
theorem stringifyTail_id (p : ConfluencePage) (r : Payload) :
    (stringifyTail p r).id = r.id := by
  unfold stringifyTail
  rcases p.body with _ | b <;> rcases p.parentPageId with _ | pid <;> dsimp <;>
    (repeat' split) <;> rfl

/-- C5: for a page with version `n`, an update payload
(`createNewPage = false`) carries `version.number = n + 1` and the entity's
`id`; a create payload (`createNewPage = true`) carries neither an `id` nor a
`version`, regardless of what the entity has set. -/
theorem stringify_update_and_create (p : ConfluencePage) (n : Int)
    (hv : p.versionNumber = some n) :
    (∃ pay, p.stringify false false = .ok pay ∧
       pay.version = some { number := some (n + 1), minorEdit := false } ∧
       pay.id = p.id) ∧
    (∀ (s : Bool) (pay : Payload), p.stringify true s = .ok pay →
       pay.id = none ∧ pay.version = none) := by
  constructor
  · refine ⟨_, rfl, ?_, ?_⟩
    · rw [stringifyTail_version]
      simp [hv]
    · rw [stringifyTail_id]
      simp
  · intro s pay h
    cases s
    · simp only [ConfluencePage.stringify, Bool.false_eq_true, if_true, if_false,
        Except.ok.injEq] at h
      rw [← h]
      rw [stringifyTail_id, stringifyTail_version]
      exact ⟨rfl, rfl⟩
    · simp [ConfluencePage.stringify] at h

/-- Witness for `stringify_update_and_create` at a concrete page (version 1). -/
theorem stringify_update_and_create_witness :
    (∃ pay, basePage.stringify false false = .ok pay ∧
       pay.version = some { number := some 2, minorEdit := false } ∧
       pay.id = basePage.id) ∧
    (∀ (s : Bool) (pay : Payload), basePage.stringify true s = .ok pay →
       pay.id = none ∧ pay.version = none) := by
  have h := stringify_update_and_create basePage 1 rfl
  simpa using h

/-- C10: serializing in create mode with notification suppression always
throws — the `minorEdit` assignment dereferences the `version` object, which
the create path never builds. -/
theorem stringify_create_suppress_throws (p : ConfluencePage) :
    ∃ e, p.stringify true true = .error e :=
  ⟨_, rfl⟩

/-- Witness for `stringify_create_suppress_throws` at a concrete page. -/
theorem stringify_create_suppress_throws_witness :
    ∃ e, basePage.stringify true true = .error e :=
  stringify_create_suppress_throws basePage

/-! ## C7 — `removePage` -/

/-- C7: calling `removePage` on a page whose status is `"trashed"` throws with
zero requests issued; on a valid page with a stored id and a different status,
a 200 or 204 response sets the local status to `"trashed"` and returns `true`,
and any other response leaves the page unchanged and returns `false` (one
request issued either way). -/
theorem removePage_spec :
    (∀ (p : ConfluencePage) (st : Nat), p.status = some "trashed" →
       (ConfluenceClient.removePage st p).2 = 0 ∧
       ∃ e, (ConfluenceClient.removePage st p).1 = .error e) ∧
    (∀ (p : ConfluencePage) (st : Nat), p.valid = true → jsStrFalsy p.id = false →
       p.status ≠ some "trashed" →
       ((st = 200 ∨ st = 204) →
          ConfluenceClient.removePage st p = (.ok (true, { p with status := some "trashed" }), 1)) ∧
       (¬ (st = 200 ∨ st = 204) →
          ConfluenceClient.removePage st p = (.ok (false, p), 1))) := by
  constructor
  · intro p st h
    unfold ConfluenceClient.removePage
    split_ifs <;> simp_all
  · intro p st hval hid hst
    unfold ConfluenceClient.removePage
    split_ifs <;> simp_all

/-- Witness for `removePage_spec`: a trashed page throws without a request;
a current page is trashed locally by a 204 response. -/
theorem removePage_spec_witness :
    ((ConfluenceClient.removePage 200 pageTrashed).2 = 0 ∧
     ∃ e, (ConfluenceClient.removePage 200 pageTrashed).1 = .error e) ∧
    ConfluenceClient.removePage 204 basePage =
      (.ok (true, { basePage with status := some "trashed" }), 1) :=
  ⟨removePage_spec.1 pageTrashed 200 rfl,
   (removePage_spec.2 basePage 204 rfl rfl (by decide)).1 (Or.inr rfl)⟩

/-! ## C8 — dirty-flag-guarded entity-side saves and their combination -/

/-- C8: on a page with no dirty flags each of the three entity-side save
methods returns `true` without delegating to the client, and so does the
combined `update`; `update` runs page data, then labels, then Scaffolding,
skipping all later steps as soon as one step returns `false`. -/
theorem entity_update_spec :
    (∀ (p : ConfluencePage) (co : ClientOracle), p.noDirty = true →
       p.updatePageData co = (true, []) ∧ p.updatePageLabels co = (true, []) ∧
       p.updateScaffoldingData co = (true, []) ∧ p.update co = (true, [])) ∧
    (∀ (p : ConfluencePage) (co : ClientOracle), (p.updatePageData co).1 = false →
       p.update co = (false, (p.updatePageData co).2)) ∧
    (∀ (p : ConfluencePage) (co : ClientOracle), (p.updatePageData co).1 = true →
       (p.updatePageLabels co).1 = false →
       p.update co = (false, (p.updatePageData co).2 ++ (p.updatePageLabels co).2)) := by
  refine ⟨?_, ?_, ?_⟩
  · intro p co h
    simp only [ConfluencePage.noDirty, Bool.and_eq_true, Bool.not_eq_true'] at h
    obtain ⟨⟨⟨⟨⟨h1, h2⟩, h3⟩, h4⟩, h5⟩, h6⟩ := h
    simp [ConfluencePage.updatePageData, ConfluencePage.updatePageLabels,
      ConfluencePage.updateScaffoldingData, ConfluencePage.update, h1, h2, h3, h4, h5, h6]
  · intro p co h
    simp [ConfluencePage.update, h]
  · intro p co h1 h2
    simp [ConfluencePage.update, h1, h2]

/-- Witness for `entity_update_spec`: the clean `basePage` with a client that
would fail every call still saves successfully without any delegation; a page
with only a dirty title short-circuits after the failing page-data step. -/
theorem entity_update_spec_witness :
    (basePage.updatePageData ⟨false, false, false⟩ = (true, []) ∧
     basePage.updatePageLabels ⟨false, false, false⟩ = (true, []) ∧
     basePage.updateScaffoldingData ⟨false, false, false⟩ = (true, []) ∧
     basePage.update ⟨false, false, false⟩ = (true, [])) ∧
    ({ basePage with hasTitleChanged := true } : ConfluencePage).update ⟨false, true, true⟩ =
      (false, [.pageDataCall]) :=
  ⟨entity_update_spec.1 basePage ⟨false, false, false⟩ rfl,
   entity_update_spec.2.1 { basePage with hasTitleChanged := true } ⟨false, true, true⟩ rfl⟩

/-! ## C9 — Scaffolding get/set round trip -/

/-- After an in-place `scaffoldingSet` hit, looking the name up yields the
stored `value || ""`. -/
theorem scaffoldingLookup_set (n : String) (v : JsVal) :
    ∀ (fields fields2 : List ScaffoldingField),
      scaffoldingSet fields n v = some fields2 →
      scaffoldingLookup fields2 n = (if v.truthy then v else .vStr "")
  | [], _, h => by simp [scaffoldingSet] at h
  | f :: rest, fields2, h => by
      by_cases hn : f.name = n
      · simp only [scaffoldingSet, hn, if_true, Option.some.injEq] at h
        subst h
        simp [scaffoldingLookup]
      · simp only [scaffoldingSet, hn, if_false, Option.map_eq_some'] at h
        obtain ⟨rest2, hrest, h2⟩ := h
        subst h2
        simp only [scaffoldingLookup, hn, if_false]
        exact scaffoldingLookup_set n v rest rest2 hrest

/-- When `scaffoldingSet` misses, looking the name up in the array with a
fresh `{name, value}` record appended yields that record's value. -/
theorem scaffoldingLookup_append (n : String) (v w : JsVal) :
    ∀ fields : List ScaffoldingField,
      scaffoldingSet fields n v = none →
      scaffoldingLookup (fields ++ [⟨n, w⟩]) n = w
  | [], _ => by simp [scaffoldingLookup]
  | f :: rest, h => by
      by_cases hn : f.name = n
      · simp [scaffoldingSet, hn] at h
      · simp only [scaffoldingSet, hn, if_false, Option.map_eq_none'] at h
        simp only [List.cons_append, scaffoldingLookup, hn, if_false]
        exact scaffoldingLookup_append n v w rest h

/-- A name absent from every record makes `scaffoldingSet` miss. -/
theorem scaffoldingSet_of_absent (n : String) (v : JsVal) :
    ∀ fields : List ScaffoldingField,
      (∀ f ∈ fields, f.name ≠ n) → scaffoldingSet fields n v = none
  | [], _ => rfl
  | f :: rest, h => by
      have hn : f.name ≠ n := h f (List.mem_cons_self f rest)
      simp only [scaffoldingSet, hn, if_false, Option.map_eq_none']
      exact scaffoldingSet_of_absent n v rest (fun g hg => h g (List.mem_cons_of_mem f hg))

/-- C9 (counterexample): the stored value is `objFieldValue || ""`, which
coerces every *falsy* value — not only nullish ones — to the empty string:
setting the non-nullish value `0` and reading it back yields `""`, not `0`. -/
theorem scaffolding_falsy_counterexample :
    (JsVal.vNum 0).nullish = false ∧
    ∃ p', basePage.setScaffoldingValue "f" (.vNum 0) = .ok p' ∧
      p'.getScaffoldingValue "f" = .ok (.vStr "") ∧ JsVal.vStr "" ≠ JsVal.vNum 0 :=
  ⟨rfl, _, rfl, rfl, by decide⟩

/-- C9 (amended): for every valid (non-empty) field name, `setScaffoldingValue`
followed by `getScaffoldingValue` returns exactly `v` when `v` is truthy and
the empty string when `v` is falsy (nullish values included); a missing field
is created as a fresh `{name, value}` record (also when no Scaffolding array
exists yet), and the mutation always sets the Scaffolding dirty flag. -/
theorem scaffolding_set_get (p : ConfluencePage) (name : String) (v : JsVal)
    (h : name ≠ "") :
    ∃ p', p.setScaffoldingValue name v = .ok p' ∧
      p'.getScaffoldingValue name = .ok (if v.truthy then v else .vStr "") ∧
      p'.hasScaffoldingDataChanged = true ∧
      (p.scaffoldingData = none →
        p'.scaffoldingData = some [⟨name, if v.truthy then v else .vStr ""⟩]) ∧
      (∀ fields, p.scaffoldingData = some fields → (∀ f ∈ fields, f.name ≠ name) →
        p'.scaffoldingData = some (fields ++ [⟨name, if v.truthy then v else .vStr ""⟩])) := by
  rcases hd : p.scaffoldingData with _ | fields
  · refine ⟨{ p with
        scaffoldingData := some [⟨name, if v.truthy then v else .vStr ""⟩]
        hasScaffoldingDataChanged := true }, ?_, ?_, rfl, ?_, ?_⟩
    · simp [ConfluencePage.setScaffoldingValue, h, hd]
    · simp [ConfluencePage.getScaffoldingValue, h, scaffoldingLookup]
    · intro; rfl
    · intro fields hf; cases hf
  · rcases hs : scaffoldingSet fields name v with _ | fields2
    · refine ⟨{ p with
          scaffoldingData := some (fields ++ [⟨name, if v.truthy then v else .vStr ""⟩])
          hasScaffoldingDataChanged := true }, ?_, ?_, rfl, ?_, ?_⟩
      · simp [ConfluencePage.setScaffoldingValue, h, hd, hs]
      · simp only [ConfluencePage.getScaffoldingValue, h, if_false]
        rw [scaffoldingLookup_append name v _ fields hs]
      · intro hnone; cases hnone
      · intro fields' hf _
        cases hf
        rfl
    · refine ⟨{ p with
          scaffoldingData := some fields2
          hasScaffoldingDataChanged := true }, ?_, ?_, rfl, ?_, ?_⟩
      · simp [ConfluencePage.setScaffoldingValue, h, hd, hs]
      · simp only [ConfluencePage.getScaffoldingValue, h, if_false]
        rw [scaffoldingLookup_set name v fields fields2 hs]
      · intro hnone; cases hnone
      · intro fields' hf habs
        cases hf
        rw [scaffoldingSet_of_absent name v fields habs] at hs
        cases hs

/-- Witness for `scaffolding_set_get` at a concrete page, name and value. -/
theorem scaffolding_set_get_witness :
    ∃ p', basePage.setScaffoldingValue "g" (.vStr "x") = .ok p' ∧
      p'.getScaffoldingValue "g" = .ok (if (JsVal.vStr "x").truthy then .vStr "x" else .vStr "") ∧
      p'.hasScaffoldingDataChanged = true ∧
      (basePage.scaffoldingData = none →
        p'.scaffoldingData = some [⟨"g", if (JsVal.vStr "x").truthy then .vStr "x" else .vStr ""⟩]) ∧
      (∀ fields, basePage.scaffoldingData = some fields → (∀ f ∈ fields, f.name ≠ "g") →
        p'.scaffoldingData = some (fields ++ [⟨"g", if (JsVal.vStr "x").truthy then .vStr "x" else .vStr ""⟩])) :=
  scaffolding_set_get basePage "g" (.vStr "x") (by decide)


/-! ## C6 — search pagination -/

/-- C6: against a server that answers the first request (offset 0) with two
results and the second request (offset 2) with zero results, `searchPages`
returns exactly those two decoded entities and issues exactly the two
requests at offsets 0 and 2 — the offset advanced by the size of the first
page and the loop stopped at the empty page. -/
theorem searchPages_two_then_zero (server : String → Nat → SearchResp) (p1 p2 : String)
    (h0 : server "type=page" 0 = ⟨200, [p1, p2]⟩)
    (h2 : server "type=page" 2 = ⟨200, []⟩) :
    ConfluenceClient.searchPages server "type=page" 2 = .ok (some [p1, p2], [0, 2]) := by
  have hcql : ¬¬((jsTrim "type=page").length > 5) := by decide
  have hsub : ¬¬(jsContainsSubstr (jsToLower "type=page") "type=page" = true) := by decide
  have htrim : jsTrim "type=page" = "type=page" := by decide
  unfold ConfluenceClient.searchPages
  rw [if_neg hcql, if_neg hsub, htrim]
  simp only [searchLoop, h0, h2]
  norm_num [searchLoop, h2]

/-- A concrete server for the pagination witness: two results at offset 0,
none afterwards. -/
def twoPageServer : String → Nat → SearchResp :=
  fun _ intStartAt => if intStartAt = 0 then ⟨200, ["P1", "P2"]⟩ else ⟨200, []⟩

/-- Witness for `searchPages_two_then_zero` on `twoPageServer`. -/
theorem searchPages_two_then_zero_witness :
    ConfluenceClient.searchPages twoPageServer "type=page" 2 = .ok (some ["P1", "P2"], [0, 2]) :=
  searchPages_two_then_zero twoPageServer "P1" "P2" rfl rfl


/-! ## C1 / C2 — label reconciliation -/

/-- Removing a label locally never touches the page's validity tag. -/
theorem removeLabelLocal_valid (p : ConfluencePage) (n : String) :
    (p.removeLabelLocal n).valid = p.valid := by
  unfold ConfluencePage.removeLabelLocal
  cases p.labels <;> rfl

/-- Removing a label locally never touches the page's id. -/
theorem removeLabelLocal_id (p : ConfluencePage) (n : String) :
    (p.removeLabelLocal n).id = p.id := by
  unfold ConfluencePage.removeLabelLocal
  cases p.labels <;> rfl

/-- Adding a label locally never touches the page's validity tag. -/
theorem addLabelLocal_valid (p : ConfluencePage) (n : String) :
    (p.addLabelLocal n).valid = p.valid := by
  unfold ConfluencePage.addLabelLocal
  cases p.labels
  · rfl
  · dsimp
    split <;> rfl

/-- Adding a label locally never touches the page's id. -/
theorem addLabelLocal_id (p : ConfluencePage) (n : String) :
    (p.addLabelLocal n).id = p.id := by
  unfold ConfluencePage.addLabelLocal
  cases p.labels
  · rfl
  · dsimp
    split <;> rfl

/-- The remove loop of the reconciliation, on valid input, never throws,
issues exactly one remove request per remote name that does not occur
verbatim in the local list, and preserves validity and id of the page. -/
theorem removeLoop_log (oracle : LabelReq → Nat) (locals : List String) :
    ∀ (names : List String) (p : ConfluencePage) (r1 : Bool) (log : List LabelReq),
      p.valid = true → jsStrFalsy p.id = false →
      names.all ConfluenceClient.isValidLabelName = true →
      ∃ r p2, removeLoop oracle locals names p r1 log =
          (some r, p2,
            log ++ (names.filter (fun n => !(locals.contains n))).map LabelReq.removeReq) ∧
        p2.valid = true ∧ jsStrFalsy p2.id = false
  | [], p, r1, log, hv, hid, _ => ⟨r1, p, by simp [removeLoop], hv, hid⟩
  | n :: rest, p, r1, log, hv, hid, hall => by
      simp only [List.all_cons, Bool.and_eq_true] at hall
      obtain ⟨hn, hrest⟩ := hall
      by_cases hc : n ∈ locals
      · obtain ⟨r, p2, heq, hv2, hid2⟩ := removeLoop_log oracle locals rest p r1 log hv hid hrest
        refine ⟨r, p2, ?_, hv2, hid2⟩
        simp only [removeLoop]
        rw [if_pos (by simpa using hc), heq]
        simp [hc]
      · by_cases hs : oracle (.removeReq n) = 204
        · obtain ⟨r, p2, heq, hv2, hid2⟩ :=
            removeLoop_log oracle locals rest (p.removeLabelLocal n) (r1 && true)
              (log ++ [.removeReq n])
              (by rw [removeLabelLocal_valid]; exact hv)
              (by rw [removeLabelLocal_id]; exact hid) hrest
          refine ⟨r, p2, ?_, hv2, hid2⟩
          simp only [removeLoop]
          rw [if_neg (by simpa using hc)]
          simp only [ConfluenceClient.removePageLabel, hn, not_true_eq_false, if_false, hv,
            hid, Bool.false_eq_true, hs, if_true]
          rw [heq]
          simp [hc]
        · obtain ⟨r, p2, heq, hv2, hid2⟩ :=
            removeLoop_log oracle locals rest p (r1 && false) (log ++ [.removeReq n]) hv hid hrest
          refine ⟨r, p2, ?_, hv2, hid2⟩
          simp only [removeLoop]
          rw [if_neg (by simpa using hc)]
          simp only [ConfluenceClient.removePageLabel, hn, not_true_eq_false, if_false, hv,
            hid, Bool.false_eq_true, if_neg hs]
          rw [heq]
          simp [hc]

/-- The add loop of the reconciliation, on valid input, never throws, issues
exactly one single-name add request per local name that does not occur
verbatim among the remote names, and preserves validity and id. -/
theorem addLoop_log (oracle : LabelReq → Nat) (remotes : List String) :
    ∀ (names : List String) (p : ConfluencePage) (r2 : Bool) (log : List LabelReq),
      p.valid = true → jsStrFalsy p.id = false →
      names.all ConfluenceClient.isValidLabelName = true →
      ∃ r p2, addLoop oracle remotes names p r2 log =
          (some r, p2,
            log ++ (names.filter (fun n => !(remotes.contains n))).map
              (fun n => LabelReq.addReq [n])) ∧
        p2.valid = true ∧ jsStrFalsy p2.id = false
  | [], p, r2, log, hv, hid, _ => ⟨r2, p, by simp [addLoop], hv, hid⟩
  | n :: rest, p, r2, log, hv, hid, hall => by
      simp only [List.all_cons, Bool.and_eq_true] at hall
      obtain ⟨hn, hrest⟩ := hall
      by_cases hc : n ∈ remotes
      · obtain ⟨r, p2, heq, hv2, hid2⟩ := addLoop_log oracle remotes rest p r2 log hv hid hrest
        refine ⟨r, p2, ?_, hv2, hid2⟩
        simp only [addLoop]
        rw [if_pos (by simpa using hc), heq]
        simp [hc]
      · by_cases hs : oracle (.addReq [n]) = 200
        · obtain ⟨r, p2, heq, hv2, hid2⟩ :=
            addLoop_log oracle remotes rest (p.addLabelLocal n) r2
              (log ++ [.addReq [n]])
              (by rw [addLabelLocal_valid]; exact hv)
              (by rw [addLabelLocal_id]; exact hid) hrest
          refine ⟨r, p2, ?_, hv2, hid2⟩
          simp only [addLoop]
          rw [if_neg (by simpa using hc)]
          simp only [ConfluenceClient.addPageLabels, hv, not_true_eq_false, if_false, hid,
            Bool.false_eq_true, List.isEmpty_cons, List.all_cons, List.all_nil, hn,
            Bool.and_true, not_false_eq_true, hs, if_true, List.foldl_cons, List.foldl_nil]
          rw [heq]
          simp [hc]
        · obtain ⟨r, p2, heq, hv2, hid2⟩ :=
            addLoop_log oracle remotes rest p (r2 && false) (log ++ [.addReq [n]]) hv hid hrest
          refine ⟨r, p2, ?_, hv2, hid2⟩
          simp only [addLoop]
          rw [if_neg (by simpa using hc)]
          simp only [ConfluenceClient.addPageLabels, hv, not_true_eq_false, if_false, hid,
            Bool.false_eq_true, List.isEmpty_cons, List.all_cons, List.all_nil, hn,
            Bool.and_true, not_false_eq_true, if_neg hs]
          rw [heq]
          simp [hc]

/-- The response oracle in which every label request succeeds
(200 for fetch/add, 204 for remove). -/
def allOkOracle : LabelReq → Nat
  | .fetchReq => 200
  | .removeReq _ => 204
  | .addReq _ => 200

/-- C1: reconciling local labels `{a, b}` against server labels `{b, c}`
issues exactly one fetch, one remove request for `c` and one add request for
`["a"]` — both issued regardless of each other's outcome — and returns the
conjunction of "the remove answered 204" and "the add answered 200", so a
failing remove combined with a succeeding add yields `false` although the add
for `a` was still performed.  The page keeps its labels `["a", "b"]`. -/
theorem updatePageLabels_reconcile (oracle : LabelReq → Nat)
    (hf : oracle .fetchReq = 200) :
    ConfluenceClient.updatePageLabels oracle ["b", "c"] pageLabelsDirty =
      (some (decide (oracle (.removeReq "c") = 204) && decide (oracle (.addReq ["a"]) = 200)),
       pageLabelsDirty, [.fetchReq, .removeReq "c", .addReq ["a"]]) := by
  have hrm : pageLabelsDirty.removeLabelLocal "c" = pageLabelsDirty := by decide
  have had : pageLabelsDirty.addLabelLocal "a" = pageLabelsDirty := by decide
  have hvc : ConfluenceClient.isValidLabelName "c" = true := by decide
  have hva : ConfluenceClient.isValidLabelName "a" = true := by decide
  have hval : pageLabelsDirty.valid = true := rfl
  have hid : jsStrFalsy pageLabelsDirty.id = false := by decide
  have hlab : pageLabelsDirty.labels = some ["a", "b"] := rfl
  by_cases h1 : oracle (.removeReq "c") = 204 <;>
    by_cases h2 : oracle (.addReq ["a"]) = 200 <;>
      simp [ConfluenceClient.updatePageLabels, removeLoop, addLoop,
        ConfluenceClient.removePageLabel, ConfluenceClient.addPageLabels,
        hf, h1, h2, hrm, had, hvc, hva, hval, hid, hlab]

/-- Witness for `updatePageLabels_reconcile` under the all-success oracle. -/
theorem updatePageLabels_reconcile_witness :
    ConfluenceClient.updatePageLabels allOkOracle ["b", "c"] pageLabelsDirty =
      (some true, pageLabelsDirty, [.fetchReq, .removeReq "c", .addReq ["a"]]) := by
  have h := updatePageLabels_reconcile allOkOracle rfl
  simpa using h

/-- `basePage` with the single (normalized, lowercase) local label `"a"`. -/
def pageLower : ConfluencePage :=
  { basePage with labels := some ["a"], haveLabelsChanged := true }

/-- C2 (counterexample): the reconciliation compares the raw server-side name
with the stored local string — it does NOT normalize both sides.  With the
local label `"a"` and the server label `"A"` (differing only in case), the
claim implies that they are treated as equal, so no remove and no add would
be issued; instead the run issues a remove request for `"A"` and an add
request for `["a"]`. -/
theorem updatePageLabels_case_sensitive :
    (ConfluenceClient.updatePageLabels allOkOracle ["A"] pageLower).2.2 =
      [.fetchReq, .removeReq "A", .addReq ["a"]] := by decide

/-- C2 (amended): every membership comparison of the reconciliation uses plain
string equality between the raw remote name and the locally stored string
(which is lowercase-trimmed only when it entered through `addLabel`; names
decoded from a server response are stored verbatim): the remove requests are
exactly the remote names not literally contained in the local list and the
add requests exactly the local names not literally contained in the remote
list, so labels differing only in case or whitespace are treated as
distinct. -/
theorem updatePageLabels_raw_comparison (oracle : LabelReq → Nat) (remote : List String)
    (p : ConfluencePage) (h1 : p.valid = true) (h2 : jsStrFalsy p.id = false)
    (hf : oracle .fetchReq = 200)
    (hr : remote.all ConfluenceClient.isValidLabelName = true)
    (hl : (p.labels.getD []).all ConfluenceClient.isValidLabelName = true) :
    ∃ r p2, ConfluenceClient.updatePageLabels oracle remote p =
      (some r, p2,
        .fetchReq ::
          ((remote.filter (fun n => !((p.labels.getD []).contains n))).map
              LabelReq.removeReq ++
           ((p.labels.getD []).filter (fun n => !(remote.contains n))).map
              (fun n => LabelReq.addReq [n]))) := by
  obtain ⟨r1, p2, heq1, hv2, hid2⟩ :=
    removeLoop_log oracle (p.labels.getD []) remote p true [.fetchReq] h1 h2 hr
  obtain ⟨r2, p3, heq2, hv3, hid3⟩ :=
    addLoop_log oracle remote (p.labels.getD []) p2 true
      ([.fetchReq] ++ (remote.filter (fun n => !((p.labels.getD []).contains n))).map
         LabelReq.removeReq)
      hv2 hid2 hl
  refine ⟨r1 && r2, p3, ?_⟩
  unfold ConfluenceClient.updatePageLabels
  rw [if_neg (by simp [h1]), if_neg (by simp [h2]), if_neg (by simp [hf])]
  dsimp only
  rw [heq1]
  dsimp only
  rw [heq2]
  simp

/-- Witness for `updatePageLabels_raw_comparison`: local `["a"]` against
remote `["A"]` produces one remove (for `"A"`) and one add (for `["a"]`). -/
theorem updatePageLabels_raw_comparison_witness :
    ∃ r p2, ConfluenceClient.updatePageLabels allOkOracle ["A"] pageLower =
      (some r, p2, [.fetchReq, .removeReq "A", .addReq ["a"]]) := by
  have h := updatePageLabels_raw_comparison allOkOracle ["A"] pageLower rfl (by decide) rfl
    (by decide) (by decide)
  simpa using h

end SnConfluence
